import Mathlib

/-!
Verification of the TradingView client core (src/client.js): the inbound
packet router, the authentication gate, the outbound send queue and the
error dispatch fallback, shallowly embedded in Lean.

The wire codec (module protocol, parseWSPacket / formatWSPacket) is not part
of the provided sources; where a claim depends on the encoded frame text, the
encoder is modelled from the specification (length-prefixed framing
"~m~" ++ L ++ "~m~" ++ payload, JSON body for object packets, raw text for
string packets such as the pong reply).
-/

namespace TVClient

/-- A JavaScript value as it can appear in a decoded packet field
(packet.m, packet.p, or an element of packet.p). obj stands for an
arbitrary (plain, non-array) object, which is always truthy. -/
inductive JVal where
  | str (s : String)
  | num (n : Int)
  | bool (b : Bool)
  | null
  | undef
  | obj
  | arr (xs : List JVal)

/-- JavaScript truthiness of a value, as used by the conditions
"packet.m && packet.p" and "session && this.#sessions[session]"
in client.js. Empty string, 0, false, null and undefined are falsy;
objects and arrays are always truthy. -/
def JVal.truthy : JVal → Bool
  | .str s => !s.isEmpty
  | .num n => n != 0
  | .bool b => b
  | .null => false
  | .undef => false
  | .obj => true
  | .arr _ => true

/-- JavaScript indexing v[0], used for "const session = packet.p[0]" in
client.js. On an array it is the first element (undefined when empty);
on a string it is the one-character string at position 0; on anything
else the code never reaches the indexing with a falsy p, and on truthy
non-indexable values the result is undefined. -/
def JVal.index0 : JVal → JVal
  | .arr [] => .undef
  | .arr (x :: _) => x
  | .str s =>
    match s.toList with
    | [] => .undef
    | c :: _ => .str (String.singleton c)
  | _ => .undef

mutual
/-- JavaScript ToString of a value, used when a JVal is used as a property
key in "this.#sessions[session]". For arrays this is the comma join of the
elements (modelling Array.prototype.toString; the treatment of null and
undefined elements inside nested arrays is simplified to their own
ToString). -/
def jvalToKey : JVal → String
  | .str s => s
  | .num n => toString n
  | .bool b => cond b "true" "false"
  | .null => "null"
  | .undef => "undefined"
  | .obj => "[object Object]"
  | .arr xs => jvalKeyJoin xs

/-- Comma join of the ToString of each element of a list. -/
def jvalKeyJoin : List JVal → String
  | [] => ""
  | [x] => jvalToKey x
  | x :: y :: xs => jvalToKey x ++ "," ++ jvalKeyJoin (y :: xs)
end

/-- Escape one character for a JSON string literal (quote and backslash). -/
def jsonEscapeChar (c : Char) : String :=
  if c == '"' then "\\\"" else if c == '\\' then "\\\\" else String.singleton c

/-- Escape a string for inclusion in a JSON string literal. -/
def jsonEscape (s : String) : String :=
  String.join (s.toList.map jsonEscapeChar)

mutual
/-- Modelled from the spec: JSON serialization of a value, as performed by
the missing protocol module when encoding an outbound packet
(encode serializes a value to JSON). undefined inside an array serializes
as null; the opaque obj placeholder serializes as an empty object. -/
def jsonOfJVal : JVal → String
  | .str s => "\"" ++ jsonEscape s ++ "\""
  | .num n => toString n
  | .bool b => cond b "true" "false"
  | .null => "null"
  | .undef => "null"
  | .obj => "\x7b\x7d"
  | .arr xs => "[" ++ jsonOfList xs ++ "]"

/-- Comma-separated JSON serialization of a list of values. -/
def jsonOfList : List JVal → String
  | [] => ""
  | [x] => jsonOfJVal x
  | x :: y :: xs => jsonOfJVal x ++ "," ++ jsonOfList (y :: xs)
end

/-- Modelled from the spec: protocol.formatWSPacket on a string payload
(used for the pong reply). The frame is "~m~" ++ L ++ "~m~" ++ payload where
L is the length of the payload text. -/
def formatWSPacketStr (s : String) : String :=
  "~m~" ++ toString s.length ++ "~m~" ++ s

/-- Modelled from the spec: protocol.formatWSPacket on an object packet
with type m and payload list p; the body is the JSON serialization of
the object with fields m and p, wrapped in the length-prefixed framing. -/
def formatWSPacketObj (m : String) (p : List JVal) : String :=
  let body := "\x7b\"m\":" ++ jsonOfJVal (.str m) ++ ",\"p\":" ++ jsonOfJVal (.arr p) ++ "\x7d"
  "~m~" ++ toString body.length ++ "~m~" ++ body

/-- A decoded inbound frame, as produced by protocol.parseWSPacket: a bare
number is a ping, anything else is an object packet with fields m and p. -/
inductive Packet where
  | ping (n : Int)
  | msg (m : JVal) (p : JVal)

/-- The strict-equality check of packet.m against "protocol_error" in
client.js. -/
def isProtocolError : JVal → Bool
  | .str s => s == "protocol_error"
  | _ => false

/-- An observable action of the client while routing inbound frames.
wsSend is a write to the transport, wsClose a close of the transport,
errorDispatch a call to #handleError with the packet payload,
deliver a call of the registered session handler onData with the parsed
object (type := packet.m, data := packet.p), and emitPing, emitLogged,
emitData the dispatches on the ping, logged and data channels. -/
inductive Effect where
  | wsSend (frame : String)
  | emitPing (n : Int)
  | errorDispatch (payload : JVal)
  | wsClose
  | deliver (key : String) (ty : JVal) (data : JVal)
  | emitLogged (pk : Packet)
  | emitData (pk : Packet)

/-- The session registry #sessions, represented by its set of registered
keys (handlers are opaque; registered handlers are objects, hence truthy). -/
abbrev Registry := List String

/-- The body of the forEach callback in #parsePacket of client.js, for one
decoded packet. logged is the #logged flag, registry the keys of #sessions.
A ping sends the pong reply and dispatches ping; a protocol_error packet
dispatches the error and closes the transport; a packet with truthy m and p
whose truthy first payload element is a registered key is delivered to that
session handler only; every other packet is dispatched on the logged channel
when #logged is false, else on the data channel. -/
def processPacket (logged : Bool) (registry : Registry) : Packet → List Effect
  | .ping n =>
    [.wsSend (formatWSPacketStr ("~h~" ++ toString n)), .emitPing n]
  | .msg m p =>
    if isProtocolError m then
      [.errorDispatch p, .wsClose]
    else if m.truthy && (p.truthy && (p.index0.truthy
        && registry.contains (jvalToKey p.index0))) then
      -- the source checks "packet.m && packet.p" and then, inside, checks
      -- "session && this.#sessions[session]" with an early return on
      -- delivery; the two nested guards flatten to this conjunction
      [.deliver (jvalToKey p.index0) m p]
    else if !logged then [.emitLogged (.msg m p)]
    else [.emitData (.msg m p)]

/-- #parsePacket of client.js on a whole decoded batch: nothing happens when
the socket is not open; otherwise every packet of the batch is processed in
order by the forEach callback (a return inside the callback only ends the
current iteration, so processing always continues with the next packet). -/
def parsePacket (isOpen logged : Bool) (registry : Registry)
    (batch : List Packet) : List Effect :=
  if !isOpen then []
  else (batch.map (processPacket logged registry)).flatten

/-- The mutable client state relevant to the send path: the pending queue
#sendQueue (already encoded frames, head first), the #logged flag, whether
the socket readyState is OPEN, and the trace of frames already written to
the transport in write order. -/
structure ClientSt where
  queue : List String
  logged : Bool
  wsOpen : Bool
  sent : List String
deriving Repr

/-- The while loop of sendQueue() in client.js: while the socket is open,
#logged is true and the queue is nonempty, shift the head off the queue and
write it to the transport. Returns the frames written (in write order) and
the remaining queue. -/
def sendQueueLoop (wsOpen logged : Bool) : List String → List String × List String
  | [] => ([], [])
  | x :: xs =>
    if wsOpen && logged then
      let rest := sendQueueLoop wsOpen logged xs
      (x :: rest.1, rest.2)
    else ([], x :: xs)

/-- The effect of calling this.sendQueue() on the client state. -/
def flushSt (st : ClientSt) : ClientSt :=
  let r := sendQueueLoop st.wsOpen st.logged st.queue
  { st with queue := r.2, sent := st.sent ++ r.1 }

/-- send(t, p) of client.js: push the encoded frame onto the tail of
#sendQueue, then call sendQueue(). -/
def sendSt (st : ClientSt) (t : String) (p : List JVal) : ClientSt :=
  flushSt { st with queue := st.queue ++ [formatWSPacketObj t p] }

/-- The auth frame delivery step shared by both constructor paths of
client.js: unshift the encoded set_auth_token frame onto the head of
#sendQueue, set #logged to true, then call sendQueue(). -/
def enqueueAuth (st : ClientSt) (frame : String) : ClientSt :=
  flushSt { st with queue := frame :: st.queue, logged := true }

/-- The auth frame composed by the anonymous constructor path. -/
def anonAuthFrame : String :=
  formatWSPacketObj "set_auth_token" [.str "unauthorized_user_token"]

/-- The auth frame composed by the token path once misc.getUser resolves
with user.authToken. -/
def tokenAuthFrame (authToken : String) : String :=
  formatWSPacketObj "set_auth_token" [.str authToken]

/-- Client state right after new WebSocket(...): empty queue, #logged false,
socket still connecting (readyState is not OPEN), nothing sent. -/
def initialSt : ClientSt := ⟨[], false, false, []⟩

/-- The anonymous constructor path (no token option): synchronously during
construction the auth frame is unshifted, #logged set true and a flush
attempted. -/
def constructAnon : ClientSt := enqueueAuth initialSt anonAuthFrame

/-- The token constructor path before the misc.getUser call settles: no auth
frame is queued and #logged stays false. -/
def constructTokenPending : ClientSt := initialSt

/-- The then-continuation of the token constructor path: when the credential
exchange resolves with authToken, the auth frame is unshifted, #logged set
true and a flush attempted. -/
def credResolve (st : ClientSt) (authToken : String) : ClientSt :=
  enqueueAuth st (tokenAuthFrame authToken)

/-- The socket open handler of client.js: the readyState becomes OPEN
(connected is dispatched) and sendQueue() is called. -/
def onOpen (st : ClientSt) : ClientSt :=
  flushSt { st with wsOpen := true }

/-- The socket close handler of client.js: #logged is reset to false
(disconnected is dispatched) and the readyState leaves OPEN. -/
def onClose (st : ClientSt) : ClientSt :=
  { st with wsOpen := false, logged := false }

/-- An operation that can act on the send path of a live client. -/
inductive ClientOp where
  | send (t : String) (p : List JVal)
  | sockOpen
  | sockClose

/-- Apply one client operation to the state. -/
def stepOp (st : ClientSt) : ClientOp → ClientSt
  | .send t p => sendSt st t p
  | .sockOpen => onOpen st
  | .sockClose => onClose st

/-- The frames that a list of operations would enqueue, in order. -/
def framesOf (ops : List ClientOp) : List String :=
  ops.filterMap fun
    | .send t p => some (formatWSPacketObj t p)
    | _ => none

/-- The callback lists relevant to error reporting: the error channel and
the catch-all event channel of #callbacks, each a list of observers in
registration order (observers identified by numbers). -/
structure Callbacks where
  error : List Nat
  event : List Nat

/-- One observable action of error reporting: a call of a registered error
observer with the arguments, a call of a catch-all event observer with the
channel name and the arguments, or a console.error write. -/
inductive Invocation where
  | call (observerId : Nat) (args : List String)
  | callEvent (observerId : Nat) (channel : String) (args : List String)
  | console (args : List String)

/-- #handleEvent of client.js restricted to the error channel: every error
observer is called with the arguments in registration order, then every
catch-all event observer is called with the channel name and the
arguments. -/
def dispatchError (cbs : Callbacks) (args : List String) : List Invocation :=
  cbs.error.map (fun i => .call i args)
    ++ cbs.event.map (fun i => .callEvent i "error" args)

/-- #handleError of client.js: when no error observer is registered the
arguments go to console.error, otherwise #handleEvent dispatches on the
error channel. -/
def handleError (cbs : Callbacks) (args : List String) : List Invocation :=
  if cbs.error.length == 0 then [.console args]
  else dispatchError cbs args

/-- onError of client.js: registration appends to the error callback
list. -/
def registerError (cbs : Callbacks) (i : Nat) : Callbacks :=
  { cbs with error := cbs.error ++ [i] }

/-- The catch-continuation of the token constructor path: when the
credential exchange rejects, #handleError is called with the message and
the client state is not changed (in particular #logged is never set). -/
def credRejectInvocations (cbs : Callbacks) (errMsg : String) : List Invocation :=
  handleError cbs ["Credentials error:", errMsg]

/-- Whether an effect trace contains a session handler invocation. -/
def hasDeliver : List Effect → Bool
  | [] => false
  | .deliver _ _ _ :: _ => true
  | _ :: es => hasDeliver es

/-- Number of error dispatches in an effect trace. -/
def countErrorDispatch : List Effect → Nat
  | [] => 0
  | .errorDispatch _ :: es => countErrorDispatch es + 1
  | _ :: es => countErrorDispatch es

/-- Number of protocol_error packets in a batch. -/
def countProtocolError : List Packet → Nat
  | [] => 0
  | .ping _ :: ps => countProtocolError ps
  | .msg m _ :: ps => (if isProtocolError m then 1 else 0) + countProtocolError ps

/-- The state reached by the token constructor path when the socket has
opened and a sequence of send calls was issued while the credential
exchange is still unresolved. -/
def pendingSends (sends : List (String × List JVal)) : ClientSt :=
  sends.foldl (fun st tp => sendSt st tp.1 tp.2) (onOpen constructTokenPending)

section Lemmas

/-- Closed form of the sendQueue while loop: with the gate open it drains
the whole queue in order, otherwise it does nothing. -/
theorem sendQueueLoop_eq (o l : Bool) (q : List String) :
    sendQueueLoop o l q = if o && l then (q, []) else ([], q) := by
  induction q with
  | nil => cases o <;> cases l <;> simp [sendQueueLoop]
  | cons x xs ih =>
    cases hol : (o && l) <;> simp [sendQueueLoop, hol, ih]

/-- A flush attempt while #logged is false changes nothing. -/
theorem flushSt_not_logged (st : ClientSt) (h : st.logged = false) :
    flushSt st = st := by
  cases st with
  | mk q l o s =>
    simp only at h
    subst h
    simp [flushSt, sendQueueLoop_eq]

/-- A flush attempt with the gate fully open drains the queue to the
transport in order. -/
theorem flushSt_drains (st : ClientSt) (ho : st.wsOpen = true)
    (hl : st.logged = true) :
    flushSt st = { st with queue := [], sent := st.sent ++ st.queue } := by
  simp [flushSt, sendQueueLoop_eq, ho, hl]

/-- While #logged is false, any sequence of send calls accumulates the
encoded frames at the tail of the queue in call order and nothing reaches
the transport. -/
theorem sends_accumulate (sends : List (String × List JVal)) (st : ClientSt)
    (h : st.logged = false) :
    (sends.foldl (fun s tp => sendSt s tp.1 tp.2) st).logged = false ∧
    (sends.foldl (fun s tp => sendSt s tp.1 tp.2) st).wsOpen = st.wsOpen ∧
    (sends.foldl (fun s tp => sendSt s tp.1 tp.2) st).sent = st.sent ∧
    (sends.foldl (fun s tp => sendSt s tp.1 tp.2) st).queue =
      st.queue ++ sends.map (fun tp => formatWSPacketObj tp.1 tp.2) := by
  induction sends generalizing st with
  | nil => simp [h]
  | cons tp rest ih =>
    have hstep : sendSt st tp.1 tp.2 =
        { st with queue := st.queue ++ [formatWSPacketObj tp.1 tp.2] } := by
      unfold sendSt
      exact flushSt_not_logged _ h
    have := ih { st with queue := st.queue ++ [formatWSPacketObj tp.1 tp.2] } h
    simpa [hstep, List.append_assoc] using this

/-- While #logged is false, any sequence of send calls and socket open or
close events keeps #logged false, sends nothing to the transport, and
leaves the queue equal to the old queue followed by the newly enqueued
frames in call order. -/
theorem ops_preserve_unlogged (ops : List ClientOp) (st : ClientSt)
    (h : st.logged = false) :
    (ops.foldl stepOp st).logged = false ∧
    (ops.foldl stepOp st).sent = st.sent ∧
    (ops.foldl stepOp st).queue = st.queue ++ framesOf ops := by
  induction ops generalizing st with
  | nil => simp [h, framesOf]
  | cons op rest ih =>
    cases op with
    | send t p =>
      have hstep : sendSt st t p =
          { st with queue := st.queue ++ [formatWSPacketObj t p] } := by
        unfold sendSt
        exact flushSt_not_logged _ h
      have := ih { st with queue := st.queue ++ [formatWSPacketObj t p] } h
      simpa [stepOp, hstep, framesOf, List.append_assoc] using this
    | sockOpen =>
      have hstep : onOpen st = { st with wsOpen := true } := by
        unfold onOpen
        exact flushSt_not_logged _ h
      have := ih { st with wsOpen := true } h
      simpa [stepOp, hstep, framesOf] using this
    | sockClose =>
      have := ih { st with wsOpen := false, logged := false } rfl
      simpa [stepOp, onClose, framesOf] using this

/-- The combined session routing guard of #parsePacket, as a proposition. -/
theorem routeCond_iff (registry : Registry) (m p : JVal) :
    (m.truthy && (p.truthy && (p.index0.truthy
        && registry.contains (jvalToKey p.index0)))) = true ↔
      (m.truthy = true ∧ p.truthy = true ∧ p.index0.truthy = true
        ∧ jvalToKey p.index0 ∈ registry) := by
  simp [Bool.and_eq_true, and_assoc]

/-- One decode batch is routed packet by packet, in order. -/
theorem parsePacket_cons (logged : Bool) (registry : Registry)
    (pk : Packet) (batch : List Packet) :
    parsePacket true logged registry (pk :: batch) =
      processPacket logged registry pk ++ parsePacket true logged registry batch := by
  simp [parsePacket]

/-- Error dispatch count is additive over traces. -/
theorem countErrorDispatch_append (a b : List Effect) :
    countErrorDispatch (a ++ b) = countErrorDispatch a + countErrorDispatch b := by
  induction a with
  | nil => simp [countErrorDispatch]
  | cons e es ih => cases e <;> simp [countErrorDispatch, ih, Nat.add_right_comm]

/-- Routing one packet dispatches one error exactly when the packet is a
protocol_error message. -/
theorem countErrorDispatch_process (logged : Bool) (registry : Registry)
    (pk : Packet) :
    countErrorDispatch (processPacket logged registry pk) =
      countProtocolError [pk] := by
  cases pk with
  | ping n => simp [processPacket, countErrorDispatch, countProtocolError]
  | msg m p =>
    cases hpe : isProtocolError m with
    | true => simp [processPacket, hpe, countErrorDispatch, countProtocolError]
    | false =>
      simp only [processPacket, hpe, Bool.false_eq_true, if_false,
        countProtocolError, Nat.zero_add]
      split
      · simp [countErrorDispatch]
      · split <;> simp [countErrorDispatch]

end Lemmas

/-- C3: sendQueue() writes queued entries to the transport strictly in FIFO
order exactly when the socket is open and #logged is true; when either gate
fails the loop is a no-op and every queued entry stays in the queue, none
dropped (a permanently closed transport falls under the open gate being
false). -/
theorem c3_flush_fifo_gated (wsOpen logged : Bool) (q : List String) :
    sendQueueLoop wsOpen logged q =
      if wsOpen && logged then (q, []) else ([], q) :=
  sendQueueLoop_eq wsOpen logged q

/-- C6: a decoded Ping(n) produces exactly a transport write of the pong
frame whose payload is the text consisting of the tilde-h marker followed
by n, and a ping dispatch carrying n; no session delivery, no logged and no
data dispatch occur. The second conjunct checks the concrete reply frame of
the spec example for n = 123. -/
theorem c6_ping_reply (n : Int) (logged : Bool) (registry : Registry) :
    processPacket logged registry (.ping n) =
      [.wsSend (formatWSPacketStr ("~h~" ++ toString n)), .emitPing n] ∧
    formatWSPacketStr ("~h~" ++ toString (123 : Int)) = "~m~6~m~~h~123" :=
  ⟨rfl, by decide⟩

/-- C7: a Message packet that is not a protocol_error and is not delivered
to a registered session handler is dispatched exactly once: on the logged
channel when #logged is false, on the data channel when #logged is true. -/
theorem c7_unrouted_logged_or_data (logged : Bool) (registry : Registry)
    (m p : JVal) (hpe : isProtocolError m = false)
    (hnr : (m.truthy && (p.truthy && (p.index0.truthy
      && registry.contains (jvalToKey p.index0)))) = false) :
    processPacket logged registry (.msg m p) =
      [if logged then .emitData (.msg m p) else .emitLogged (.msg m p)] := by
  have hC : ¬ (m.truthy = true ∧ p.truthy = true ∧ p.index0.truthy = true
      ∧ jvalToKey p.index0 ∈ registry) := fun h => by
    have ht := (routeCond_iff registry m p).2 h
    rw [hnr] at ht
    exact Bool.false_ne_true ht
  cases logged <;> simp [processPacket, hpe, hC]

/-- Witness for C7 at a concrete unrouted packet in both auth states. -/
theorem c7_unrouted_logged_or_data_witness :
    processPacket true [] (.msg (.str "qsd") (.arr [.str "xx"]))
      = [.emitData (.msg (.str "qsd") (.arr [.str "xx"]))] ∧
    processPacket false [] (.msg (.str "qsd") (.arr [.str "xx"]))
      = [.emitLogged (.msg (.str "qsd") (.arr [.str "xx"]))] :=
  ⟨c7_unrouted_logged_or_data true [] _ _ (by decide) (by decide),
   c7_unrouted_logged_or_data false [] _ _ (by decide) (by decide)⟩

/-- C9: when at least one error observer is registered, #handleError invokes
every error observer with the error arguments in registration order (the
catch-all event observers are notified afterwards); when none is
registered the arguments go to console.error and no observer is invoked;
in every case the report is neither thrown nor dropped (the invocation
trace is never empty). -/
theorem c9_error_fallback (cbs : Callbacks) (args : List String) :
    (cbs.error ≠ [] →
      handleError cbs args =
        cbs.error.map (fun i => .call i args)
          ++ cbs.event.map (fun i => .callEvent i "error" args)) ∧
    (cbs.error = [] → handleError cbs args = [.console args]) ∧
    handleError cbs args ≠ [] := by
  refine ⟨fun h => ?_, fun h => ?_, ?_⟩
  · simp [handleError, dispatchError, List.length_eq_zero, h]
  · simp [handleError, h]
  · cases he : cbs.error with
    | nil => simp [handleError, he]
    | cons i is => simp [handleError, dispatchError, he]

/-- Witness for C9: two registered error observers and one catch-all
observer are invoked in order; with no error observer the report goes to
console.error. -/
theorem c9_error_fallback_witness :
    handleError ⟨[1, 2], [5]⟩ ["boom"] =
      [.call 1 ["boom"], .call 2 ["boom"], .callEvent 5 "error" ["boom"]] ∧
    handleError ⟨[], [5]⟩ ["boom"] = [.console ["boom"]] := by
  constructor
  · have h := (c9_error_fallback ⟨[1, 2], [5]⟩ ["boom"]).1 (by simp)
    simpa using h
  · exact (c9_error_fallback ⟨[], [5]⟩ ["boom"]).2.1 rfl

/-- C10: session delivery is gated by JavaScript truthiness at three points:
a handler invocation occurs exactly when the packet is not a
protocol_error, its m and p fields are truthy, its first payload element is
truthy, and that element is a registered key. Concretely, a message whose
first payload element is the empty string, or the number 0, is never
delivered even when the registry holds exactly that key (the empty string,
respectively the key "0"), and falls through to the data channel
instead. -/
theorem c10_truthiness_gates :
    (∀ (logged : Bool) (registry : Registry) (m p : JVal),
      hasDeliver (processPacket logged registry (.msg m p)) =
        (!isProtocolError m && (m.truthy && (p.truthy && (p.index0.truthy
          && registry.contains (jvalToKey p.index0)))))) ∧
    processPacket true [""] (.msg (.str "qsd") (.arr [.str ""]))
      = [.emitData (.msg (.str "qsd") (.arr [.str ""]))] ∧
    processPacket true ["0"] (.msg (.str "qsd") (.arr [.num 0]))
      = [.emitData (.msg (.str "qsd") (.arr [.num 0]))] := by
  refine ⟨fun logged registry m p => ?_, rfl, rfl⟩
  cases hpe : isProtocolError m with
  | true => simp [processPacket, hpe, hasDeliver]
  | false =>
    cases hc : (m.truthy && (p.truthy && (p.index0.truthy
        && registry.contains (jvalToKey p.index0)))) with
    | true =>
      have hC := (routeCond_iff registry m p).1 hc
      simp [processPacket, hpe, hC, hasDeliver]
    | false =>
      have hC : ¬ (m.truthy = true ∧ p.truthy = true ∧ p.index0.truthy = true
          ∧ jvalToKey p.index0 ∈ registry) := fun h => by
        have ht := (routeCond_iff registry m p).2 h
        rw [hc] at ht
        exact Bool.false_ne_true ht
      cases logged <;> simp [processPacket, hpe, hC, hasDeliver]

/-- C1 as stated is false: the counterexamples are a registered key "qs_1"
appearing as first payload element of a message whose type field is the
empty string (falsy, so the session handler is not invoked and a data
dispatch occurs instead), and of a protocol_error message (error dispatch
and close instead of delivery). -/
theorem c1_counterexample :
    processPacket true ["qs_1"] (.msg (.str "") (.arr [.str "qs_1"]))
      = [.emitData (.msg (.str "") (.arr [.str "qs_1"]))] ∧
    processPacket true ["qs_1"]
        (.msg (.str "protocol_error") (.arr [.str "qs_1"]))
      = [.errorDispatch (.arr [.str "qs_1"]), .wsClose] :=
  ⟨rfl, rfl⟩

/-- C1 amended: for a Message that is not a protocol_error, whose m and p
fields are truthy and whose truthy first payload element is a registered
session key, routing invokes exactly that session handler exactly once
with the object (type := m, data := p), and neither a data nor a logged
dispatch occurs for that frame. -/
theorem c1_routing_exclusive (logged : Bool) (registry : Registry)
    (m p : JVal) (hm : m.truthy = true) (hpe : isProtocolError m = false)
    (hp : p.truthy = true) (hs : p.index0.truthy = true)
    (hreg : registry.contains (jvalToKey p.index0) = true) :
    processPacket logged registry (.msg m p)
      = [.deliver (jvalToKey p.index0) m p] := by
  have hreg2 : jvalToKey p.index0 ∈ registry := by simpa using hreg
  simp [processPacket, hpe, hm, hp, hs, hreg2]

/-- Witness for amended C1: the spec example with registered session key
"qs_1" and message type "qsd". -/
theorem c1_routing_exclusive_witness :
    processPacket true ["qs_1"] (.msg (.str "qsd") (.arr [.str "qs_1", .obj]))
      = [.deliver "qs_1" (.str "qsd") (.arr [.str "qs_1", .obj])] :=
  c1_routing_exclusive true ["qs_1"] _ _ (by decide) (by decide) (by decide)
    (by decide) (by decide)

/-- C2 as stated is false: after the protocol_error frame dispatches its
error and invokes the transport close, the forEach loop continues, so the
Ping frame following it in the same decode batch is still routed (a pong is
written and a ping dispatch occurs). -/
theorem c2_counterexample :
    parsePacket true false []
        [.msg (.str "protocol_error") (.arr [.str "bad session"]), .ping 5]
      = [.errorDispatch (.arr [.str "bad session"]), .wsClose,
         .wsSend "~m~4~m~~h~5", .emitPing 5] := rfl

/-- C2 amended: a protocol_error message dispatches exactly one error and
invokes the transport close, and the total number of error dispatches of a
batch equals its number of protocol_error messages; however, the frames
after it in the same decode batch are still processed and routed
normally. -/
theorem c2_protocol_error_batch (logged : Bool) (registry : Registry) :
    (∀ (p : JVal) (pre post : List Packet),
      parsePacket true logged registry
          (pre ++ .msg (.str "protocol_error") p :: post) =
        parsePacket true logged registry pre
          ++ [.errorDispatch p, .wsClose]
          ++ parsePacket true logged registry post) ∧
    (∀ batch : List Packet,
      countErrorDispatch (parsePacket true logged registry batch) =
        countProtocolError batch) := by
  constructor
  · intro p pre post
    simp [parsePacket, processPacket, isProtocolError]
  · intro batch
    induction batch with
    | nil => simp [parsePacket, countErrorDispatch, countProtocolError]
    | cons pk ps ih =>
      rw [parsePacket_cons, countErrorDispatch_append, ih,
        countErrorDispatch_process]
      cases pk <;> simp [countProtocolError]

/-- C4: every send issued while the credential exchange is unresolved
leaves its encoded frame in the queue, in call order, with nothing written
to the transport; when the exchange resolves, the auth frame is unshifted
to the queue head and the flush transmits it first, followed by the
accumulated sends in their original order. -/
theorem c4_pending_auth_order (sends : List (String × List JVal))
    (tok : String) :
    (pendingSends sends).logged = false ∧
    (pendingSends sends).sent = [] ∧
    (pendingSends sends).queue =
      sends.map (fun tp => formatWSPacketObj tp.1 tp.2) ∧
    (credResolve (pendingSends sends) tok).sent =
      tokenAuthFrame tok :: sends.map (fun tp => formatWSPacketObj tp.1 tp.2) ∧
    (credResolve (pendingSends sends) tok).queue = [] := by
  have hbase : onOpen constructTokenPending =
      (⟨[], false, true, []⟩ : ClientSt) := rfl
  have h := sends_accumulate sends (⟨[], false, true, []⟩ : ClientSt) rfl
  obtain ⟨hl, ho, hs, hq⟩ := h
  have hl' : (pendingSends sends).logged = false := by
    simpa [pendingSends, hbase] using hl
  have ho' : (pendingSends sends).wsOpen = true := by
    simpa [pendingSends, hbase] using ho
  have hs' : (pendingSends sends).sent = [] := by
    simpa [pendingSends, hbase] using hs
  have hq' : (pendingSends sends).queue =
      sends.map (fun tp => formatWSPacketObj tp.1 tp.2) := by
    simpa [pendingSends, hbase] using hq
  refine ⟨hl', hs', hq', ?_, ?_⟩
  · have := flushSt_drains
      { pendingSends sends with
        queue := tokenAuthFrame tok :: (pendingSends sends).queue,
        logged := true } (by simpa using ho') rfl
    simp only [credResolve, enqueueAuth, this]
    simp [hs', hq']
  · have := flushSt_drains
      { pendingSends sends with
        queue := tokenAuthFrame tok :: (pendingSends sends).queue,
        logged := true } (by simpa using ho') rfl
    simp only [credResolve, enqueueAuth, this]

/-- C5: the #logged flag is set exactly when the auth frame is enqueued and
not by any server acknowledgement: the anonymous constructor path sets it
synchronously at construction, right after unshifting the auth frame onto
the (otherwise empty, not yet flushable) queue; the token path leaves it
false while the credential exchange is pending and sets it in the same
resolve step that unshifts the auth frame. -/
theorem c5_logged_on_enqueue :
    constructAnon.logged = true ∧
    constructAnon.queue = [anonAuthFrame] ∧
    constructAnon.sent = [] ∧
    constructTokenPending.logged = false ∧
    (∀ (st : ClientSt) (tok : String), (credResolve st tok).logged = true) := by
  refine ⟨rfl, rfl, rfl, rfl, fun st tok => ?_⟩
  simp [credResolve, enqueueAuth, flushSt]

/-- C8: when the credential exchange rejects, the error is reported through
#handleError (to the error observers when any is registered, to
console.error otherwise), the client state is untouched, and since no step
ever sets #logged on this instance, any later sequence of sends and socket
events transmits nothing: every send stays queued in call order. -/
theorem c8_reject_never_flushes (cbs : Callbacks) (errMsg : String)
    (ops : List ClientOp) :
    (cbs.error = [] →
      credRejectInvocations cbs errMsg
        = [.console ["Credentials error:", errMsg]]) ∧
    (cbs.error ≠ [] →
      credRejectInvocations cbs errMsg
        = dispatchError cbs ["Credentials error:", errMsg]) ∧
    (ops.foldl stepOp constructTokenPending).logged = false ∧
    (ops.foldl stepOp constructTokenPending).sent = [] ∧
    (ops.foldl stepOp constructTokenPending).queue = framesOf ops := by
  have h := ops_preserve_unlogged ops constructTokenPending rfl
  refine ⟨fun he => ?_, fun he => ?_, h.1, by simpa using h.2.1,
    by simpa using h.2.2⟩
  · simp [credRejectInvocations, handleError, he]
  · simp [credRejectInvocations, handleError, List.length_eq_zero, he]

/-- Witness for C8: with one registered error observer, a rejection with
message "bad token" reaches that observer, and after a socket open and one
send the client has transmitted nothing and keeps the send queued. -/
theorem c8_reject_never_flushes_witness :
    credRejectInvocations ⟨[7], []⟩ "bad token"
      = [.call 7 ["Credentials error:", "bad token"]] ∧
    ([ClientOp.sockOpen, ClientOp.send "quote_create_session" [.str "qs_1"]].foldl
        stepOp constructTokenPending).logged = false ∧
    ([ClientOp.sockOpen, ClientOp.send "quote_create_session" [.str "qs_1"]].foldl
        stepOp constructTokenPending).sent = [] ∧
    ([ClientOp.sockOpen, ClientOp.send "quote_create_session" [.str "qs_1"]].foldl
        stepOp constructTokenPending).queue
      = [formatWSPacketObj "quote_create_session" [.str "qs_1"]] := by
  have h := c8_reject_never_flushes ⟨[7], []⟩ "bad token"
    [ClientOp.sockOpen, ClientOp.send "quote_create_session" [.str "qs_1"]]
  refine ⟨?_, h.2.2.1, h.2.2.2.1, ?_⟩
  · have := h.2.1 (by simp)
    simpa [dispatchError] using this
  · have := h.2.2.2.2
    simpa [framesOf] using this

end TVClient
